import Mathlib

/-!
# Stockmanagement front end: session store, route guard, API client

A shallow embedding of

* `frontend/src/context/AuthContext.jsx` (`AuthProvider`: the three `useState`
  initialisers, the token effect, `login`, `logout`, `isAdmin`, `isDeliveryMan`,
  `isUser`, `hasRole`),
* `frontend/src/components/ProtectedRoute.jsx` (`ProtectedRoute`),
* `frontend/src/services/api.js` (the request interceptor and the response error
  handler).

JavaScript values are typed the way the source documents them: a token is a
string (or `null`), a role is a string (or `null` / `undefined`), the user is a
record (or `null`).  `localStorage` is a finite map from keys to strings.
`JSON.parse` and `JSON.stringify` are platform functions and are taken as a
parameter; either of them may throw.
-/

namespace Stockmanagement

/-! ## JavaScript values -/

/-- A JavaScript value that is a string, `null` or `undefined`: what a role
(`role`, `user.role`, `requiredRole`) can be. -/
inductive JsStr where
  | undefined
  | null
  | str (s : String)
deriving DecidableEq

namespace JsStr

/-- Truthiness: `undefined`, `null` and the empty string are falsy. -/
def truthy : JsStr → Bool
  | str s => s != ""
  | _ => false

/-- The operator `a || b`: `a` when `a` is truthy, else `b`. -/
def or (a b : JsStr) : JsStr :=
  if a.truthy then a else b

/-- The string conversion `String(v)`, applied by `localStorage.setItem` to its value. -/
def toStr : JsStr → String
  | undefined => "undefined"
  | null => "null"
  | str s => s

end JsStr

/-- Truthiness of what `localStorage.getItem` returns (a string or `null`) and of a
token held in memory. -/
def truthyItem : Option String → Bool
  | some s => s != ""
  | none => false

/-- The string conversion `String(v)` of a string or `null`, applied by
`localStorage.setItem` to its value and by a template literal to its hole. -/
def itemToStr : Option String → String
  | some s => s
  | none => "null"

/-- The user record (`userData` of `login`, the value parsed from storage). Only `role`
is read by the logic; `username` and `email` are read for logging. -/
structure User where
  username : JsStr
  email : JsStr
  role : JsStr
deriving DecidableEq

/-- The optional chain `user?.role`: `undefined` when `user` is `null`. -/
def roleOf : Option User → JsStr
  | some u => u.role
  | none => JsStr.undefined

/-! ## localStorage -/

/-- The key/value content of `localStorage`. -/
def LocalStorage : Type := String → Option String

namespace LocalStorage

/-- An empty storage. -/
def empty : LocalStorage := fun _ => none

/-- The call `localStorage.getItem(key)`: the stored string, or `null`. -/
def getItem (ls : LocalStorage) (key : String) : Option String := ls key

/-- The call `localStorage.setItem(key, value)`. The storage has no quota: the call
always succeeds. -/
def setItem (ls : LocalStorage) (key value : String) : LocalStorage :=
  fun k => if k = key then some value else ls k

/-- The call `localStorage.removeItem(key)`. -/
def removeItem (ls : LocalStorage) (key : String) : LocalStorage :=
  fun k => if k = key then none else ls k

end LocalStorage

/-- The platform object `JSON`: `parse` throws (`Except.error`) on text that is not
JSON, and otherwise yields a user record or `null`; `stringify` throws on a value it
cannot serialise (a cyclic object, a BigInt), and otherwise yields the JSON text. -/
structure JsonApi where
  parse : String → Except String (Option User)
  stringify : Option User → Except String String

/-! ## AuthContext.jsx -/

/-- The React state of `AuthProvider`. -/
structure AuthState where
  user : Option User
  token : Option String
  role : JsStr
  loading : Bool
deriving DecidableEq

/-- Everything the session store reads or writes: its React state, `localStorage`, and
`axios.defaults.headers.common['Authorization']`. -/
structure Client where
  auth : AuthState
  localStorage : LocalStorage
  axiosAuthorization : Option String

/-- The initialiser of `user` (`useState(() => ...)`, lines 27-34). -/
def initUser (JSON : JsonApi) (ls : LocalStorage) : Except String (Option User) :=
  tryCatch
    (match ls.getItem "user" with
      | some storedUser => if storedUser != "" then JSON.parse storedUser else pure none
      | none => pure none)
    (fun _ => pure none)

/-- The initialiser of `token` (line 35). -/
def initToken (ls : LocalStorage) : Except String (Option String) :=
  pure (ls.getItem "token")

/-- The initialiser of `role` (lines 36-46). -/
def initRole (JSON : JsonApi) (ls : LocalStorage) : Except String JsStr :=
  match ls.getItem "role" with
  | some storedRole =>
    if storedRole != "" then pure (JsStr.str storedRole)
    else
      tryCatch
        (match ls.getItem "user" with
          | some storedUser =>
            if storedUser != "" then (do let v ← JSON.parse storedUser; pure (roleOf v))
            else pure JsStr.null
          | none => pure JsStr.null)
        (fun _ => pure JsStr.null)
  | none =>
    tryCatch
      (match ls.getItem "user" with
        | some storedUser =>
          if storedUser != "" then (do let v ← JSON.parse storedUser; pure (roleOf v))
          else pure JsStr.null
        | none => pure JsStr.null)
      (fun _ => pure JsStr.null)

/-- The state `AuthProvider` starts with: the four `useState` calls (lines 27-47). -/
def AuthProvider (JSON : JsonApi) (ls : LocalStorage) : Except String AuthState := do
  let user ← initUser JSON ls
  let token ← initToken ls
  let role ← initRole JSON ls
  pure { user := user, token := token, role := role, loading := true }

/-- The effect on `[token]` (lines 49-58). -/
def tokenEffect (c : Client) : Client :=
  { c with
    axiosAuthorization :=
      match c.auth.token with
      | some token => if token != "" then some ("Bearer " ++ token) else none
      | none => none
    auth := { c.auth with loading := false } }

/-- The function `login(token, userData)` (lines 60-80): the client it leaves, and how
its promise settles. The three setters run first; `setItem('token', ...)` is the first
write; when `JSON.stringify(userData)` throws on line 69, nothing after it runs and the
promise rejects; otherwise `user` and `role` are written and the axios default is set. -/
def login (JSON : JsonApi) (token : Option String) (userData : Option User) (c : Client) :
    Client × Except String Unit :=
  let userRole := (roleOf userData).or (JsStr.str "CUSTOMER")
  let auth : AuthState := { c.auth with token := token, user := userData, role := userRole }
  let tokenStored := c.localStorage.setItem "token" (itemToStr token)
  match JSON.stringify userData with
  | Except.error e =>
    ({ auth := auth, localStorage := tokenStored, axiosAuthorization := c.axiosAuthorization },
      Except.error e)
  | Except.ok text =>
    ({ auth := auth
       localStorage := (tokenStored.setItem "user" text).setItem "role" userRole.toStr
       axiosAuthorization := some ("Bearer " ++ itemToStr token) },
      Except.ok ())

/-- The function `logout()` (lines 82-91). -/
def logout (c : Client) : Client :=
  { auth := { c.auth with token := none, user := none, role := JsStr.null }
    localStorage :=
      ((c.localStorage.removeItem "token").removeItem "user").removeItem "role"
    axiosAuthorization := none }

/-- The expression `role || user?.role`, which every role check starts with. -/
def currentRole (s : AuthState) : JsStr :=
  s.role.or (roleOf s.user)

/-- The function `isAdmin()` (lines 93-96). -/
def isAdmin (s : AuthState) : Bool :=
  currentRole s == JsStr.str "ADMIN"

/-- The function `isDeliveryMan()` (lines 98-101). -/
def isDeliveryMan (s : AuthState) : Bool :=
  currentRole s == JsStr.str "DELIVERY_MAN"

/-- The function `isUser()` (lines 103-107). -/
def isUser (s : AuthState) : Bool :=
  currentRole s == JsStr.str "CUSTOMER" || currentRole s == JsStr.str "USER"

/-- The function `hasRole(requiredRole)` (lines 109-119). -/
def hasRole (s : AuthState) (requiredRole : JsStr) : Bool :=
  let currentRole := currentRole s
  let normalizedCurrentRole :=
    if currentRole == JsStr.str "USER" then JsStr.str "CUSTOMER" else currentRole
  let normalizedRequiredRole :=
    if requiredRole == JsStr.str "USER" then JsStr.str "CUSTOMER" else requiredRole
  normalizedCurrentRole == normalizedRequiredRole ||
    (normalizedRequiredRole == JsStr.str "CUSTOMER" && currentRole == JsStr.str "USER") ||
    (normalizedRequiredRole == JsStr.str "USER" && normalizedCurrentRole == JsStr.str "CUSTOMER")

/-- The alias map of the specification: `'USER'` becomes `'CUSTOMER'`, every other
value is left as it is. -/
def normalize (r : JsStr) : JsStr :=
  if r = JsStr.str "USER" then JsStr.str "CUSTOMER" else r

/-! ## ProtectedRoute.jsx -/

/-- What `ProtectedRoute` returns: the loading spinner, a `<Navigate to=... replace />`
element, or its children. -/
inductive Rendered where
  | spinner
  | navigate (target : String)
  | children
deriving DecidableEq

/-- The local `roleMatches` of `ProtectedRoute` (lines 66-70), for a truthy
`requiredRole`. -/
def roleMatches (currentRole normalizedRole : JsStr) (requiredRole : String) : Bool :=
  let normalizedRequiredRole := if requiredRole == "USER" then "CUSTOMER" else requiredRole
  normalizedRole == JsStr.str normalizedRequiredRole ||
    (normalizedRequiredRole == "CUSTOMER" &&
      (normalizedRole == JsStr.str "CUSTOMER" || currentRole == JsStr.str "USER")) ||
    (normalizedRequiredRole == "USER" &&
      (normalizedRole == JsStr.str "CUSTOMER" || currentRole == JsStr.str "USER"))

/-- The local `hasAllowedRole` of `ProtectedRoute` (lines 80-83), for a non-empty
`allowedRoles`. -/
def hasAllowedRole (currentRole normalizedRole : JsStr) (allowedRoles : List String) : Bool :=
  let normalizedAllowedRoles := allowedRoles.map (fun r => if r == "USER" then "CUSTOMER" else r)
  (normalizedAllowedRoles.map JsStr.str).contains normalizedRole ||
    (normalizedAllowedRoles.contains "CUSTOMER" && currentRole == JsStr.str "USER") ||
    (normalizedAllowedRoles.contains "USER" && normalizedRole == JsStr.str "CUSTOMER")

/-- The component `ProtectedRoute({ children, adminOnly, requiredRole, allowedRoles })`
(lines 14-93). `requiredRole` and `allowedRoles` are `none` for the default `null`. -/
def ProtectedRoute (s : AuthState) (adminOnly : Bool) (requiredRole : Option String)
    (allowedRoles : Option (List String)) : Rendered :=
  if s.loading then Rendered.spinner
  else if s.user.isNone || !truthyItem s.token then
    Rendered.navigate (if adminOnly then "/admin/login" else "/login")
  else
    let currentRole := currentRole s
    let normalizedRole :=
      if currentRole == JsStr.str "USER" then JsStr.str "CUSTOMER" else currentRole
    if adminOnly && !isAdmin s then Rendered.navigate "/"
    else if
      (match requiredRole with
        | some r => r != "" && !roleMatches currentRole normalizedRole r
        | none => false)
    then Rendered.navigate "/"
    else if
      (match allowedRoles with
        | some l => !l.isEmpty && !hasAllowedRole currentRole normalizedRole l
        | none => false)
    then Rendered.navigate "/"
    else Rendered.children

/-! ## api.js -/

/-- The part of an axios request config the request interceptor touches: `url` and
`method` (logged), the header map, and whether `data instanceof FormData`. -/
structure RequestConfig where
  url : JsStr
  method : JsStr
  headers : String → Option String
  dataIsFormData : Bool

namespace RequestConfig

/-- The assignment `config.headers[name] = value`. -/
def setHeader (config : RequestConfig) (name value : String) : RequestConfig :=
  { config with headers := fun k => if k = name then some value else config.headers k }

/-- The statement `delete config.headers[name]`. -/
def deleteHeader (config : RequestConfig) (name : String) : RequestConfig :=
  { config with headers := fun k => if k = name then none else config.headers k }

end RequestConfig

/-- The request interceptor (`api.interceptors.request.use`, lines 18-48). -/
def requestInterceptor (ls : LocalStorage) (config : RequestConfig) : RequestConfig :=
  let token := ls.getItem "token"
  let config :=
    match token with
    | some t =>
      if t != "" then config.setHeader "Authorization" ("Bearer " ++ t)
      else config.deleteHeader "Authorization"
    | none => config.deleteHeader "Authorization"
  if !truthyItem (config.headers "Content-Type") && !config.dataIsFormData then
    config.setHeader "Content-Type" "application/json"
  else config

/-- The `response` of a failed request, as far as the error handler reads it: `status`
and `data?.error`. -/
structure ErrorResponse where
  status : Int
  dataError : JsStr

/-- The error object handed to the response error handler. `response` is `none` when the
request failed without a response; `config` is the request config, when there is one. -/
structure AxiosError where
  message : JsStr
  response : Option ErrorResponse
  config : Option RequestConfig

/-- One `console.error` call of the response error handler, with the object it prints. -/
inductive ConsoleEntry where
  | unauthorized (url message : JsStr) (tokenExists : Bool)
  | forbidden (url message : JsStr) (role : Option String)
  | serverError (url : JsStr) (status : Int) (message : JsStr)

/-- The browser page the API client runs in: the session store with `localStorage`,
`window.location.href`, and the console. -/
structure Page where
  client : Client
  location : String
  console : List ConsoleEntry

/-- A settled promise: `Promise.resolve(value)` or `Promise.reject(reason)`. -/
inductive Promise where
  | resolve (value : ErrorResponse)
  | reject (reason : AxiosError)

/-- The response error handler (second argument of `api.interceptors.response.use`,
lines 65-95): it reads `status` and `url`, logs by status class, and rejects. -/
def responseErrorHandler (error : AxiosError) (p : Page) : Page × Promise :=
  let status := error.response.map (fun r => r.status)
  let url :=
    match error.config with
    | some config => config.url
    | none => JsStr.undefined
  let dataError :=
    match error.response with
    | some r => r.dataError
    | none => JsStr.undefined
  let p :=
    if status == some 401 then
      { p with
        console := p.console ++
          [ConsoleEntry.unauthorized url (dataError.or (JsStr.str "Authentication failed"))
            (truthyItem (p.client.localStorage.getItem "token"))] }
    else if status == some 403 then
      { p with
        console := p.console ++
          [ConsoleEntry.forbidden url (dataError.or (JsStr.str "Access denied"))
            (p.client.localStorage.getItem "role")] }
    else
      match status with
      | some n =>
        if n ≥ 500 then
          { p with
            console := p.console ++
              [ConsoleEntry.serverError url n (dataError.or error.message)] }
        else p
      | none => p
  (p, Promise.reject error)

/-! ## Concrete data used in the worked examples -/

/-- An administrator record. -/
def adminUser : User :=
  { username := JsStr.str "root", email := JsStr.undefined, role := JsStr.str "ADMIN" }

/-- A delivery-man record. -/
def deliveryUser : User :=
  { username := JsStr.str "dan", email := JsStr.undefined, role := JsStr.str "DELIVERY_MAN" }

/-- A record whose `role` is the empty string. -/
def blankRoleUser : User :=
  { username := JsStr.str "eve", email := JsStr.undefined, role := JsStr.str "" }

/-- A `JSON` that serialises `null` and the sample records and parses them back, and
throws on every other text. -/
def sampleJSON : JsonApi where
  stringify := fun u =>
    match u with
    | none => Except.ok "null"
    | some v =>
      if v = adminUser then Except.ok "admin-record"
      else if v = deliveryUser then Except.ok "delivery-record"
      else Except.ok "other-record"
  parse := fun text =>
    if text = "null" then Except.ok none
    else if text = "admin-record" then Except.ok (some adminUser)
    else if text = "delivery-record" then Except.ok (some deliveryUser)
    else Except.error "SyntaxError"

/-- A `JSON` whose `stringify` throws, as the platform does on a cyclic `userData`;
`parse` is that of `sampleJSON`. -/
def throwingJSON : JsonApi where
  stringify := fun _ => Except.error "TypeError: cyclic object value"
  parse := sampleJSON.parse

/-- A client in its first render: nothing stored, nothing in memory. -/
def freshClient : Client :=
  { auth := { user := none, token := none, role := JsStr.null, loading := false }
    localStorage := LocalStorage.empty
    axiosAuthorization := none }

/-- A request config that still carries an `Authorization` header from earlier. -/
def staleConfig : RequestConfig :=
  { url := JsStr.str "/orders/all", method := JsStr.str "get"
    headers := fun k => if k = "Authorization" then some "Bearer old" else none
    dataIsFormData := false }

/-- A hydrated administrator session. -/
def adminSession : AuthState :=
  { user := some adminUser, token := some "tok", role := JsStr.str "ADMIN", loading := false }

/-- A hydrated delivery-man session. -/
def deliverySession : AuthState :=
  { user := some deliveryUser, token := some "tok", role := JsStr.str "DELIVERY_MAN",
    loading := false }

/-- A hydrated customer session whose stored role is the canonical `CUSTOMER`. -/
def customerSession : AuthState :=
  { user := some blankRoleUser, token := some "tok", role := JsStr.str "CUSTOMER",
    loading := false }

/-- A hydrated session whose role is the legacy alias `USER`. -/
def legacyUserSession : AuthState :=
  { user := some blankRoleUser, token := some "tok", role := JsStr.str "USER",
    loading := false }

/-- A session with a token but no user. -/
def tokenOnlySession : AuthState :=
  { user := none, token := some "tok", role := JsStr.str "ADMIN", loading := false }

/-- A storage whose `token` entry is the empty string. -/
def emptyTokenStorage : LocalStorage :=
  LocalStorage.empty.setItem "token" ""

/-- A storage with a token and a role, and a `user` entry that is not JSON. -/
def corruptUserStorage : LocalStorage :=
  ((LocalStorage.empty.setItem "token" "tok").setItem "user" "not json").setItem "role" "ADMIN"

/-- The session components `logout` is about: the three values in memory, the three
storage entries, and the default `Authorization` header. -/
def sessionView (c : Client) :
    (Option String × Option User × JsStr) ×
      (Option String × Option String × Option String) × Option String :=
  ((c.auth.token, c.auth.user, c.auth.role),
    (c.localStorage.getItem "token", c.localStorage.getItem "user",
      c.localStorage.getItem "role"),
    c.axiosAuthorization)

/-- A page showing `/orders` with an administrator logged in and an empty console. -/
def adminPage : Page :=
  { client := (login sampleJSON (some "tok") (some adminUser) freshClient).1
    location := "/orders"
    console := [] }

/-- The error of a request to `/orders/all` answered with status 401. -/
def unauthorizedError : AxiosError :=
  { message := JsStr.str "Request failed with status code 401"
    response := some { status := 401, dataError := JsStr.undefined }
    config := some staleConfig }

/-- The error of a request that got no response at all. -/
def networkError : AxiosError :=
  { message := JsStr.str "Network Error", response := none, config := some staleConfig }

/-! ## Theorems -/

/-! ### Helper lemmas -/

theorem normalize_str (r : String) :
    normalize (JsStr.str r) = JsStr.str (if r == "USER" then "CUSTOMER" else r) := by
  unfold normalize
  by_cases h : r = "USER" <;> simp [h]

theorem normalize_beq (c : JsStr) :
    (if c == JsStr.str "USER" then JsStr.str "CUSTOMER" else c) = normalize c := by
  unfold normalize
  by_cases h : c = JsStr.str "USER" <;> simp [h]

theorem normalize_ne_user (c : JsStr) : normalize c ≠ JsStr.str "USER" := by
  unfold normalize
  by_cases h : c = JsStr.str "USER"
  · simp [h]
  · simp [h]

theorem normalize_eq_customer_of_user {c : JsStr} (h : c = JsStr.str "USER") :
    normalize c = JsStr.str "CUSTOMER" := by
  simp [normalize, h]

theorem contains_iff_mem {α : Type} [BEq α] [LawfulBEq α] (l : List α) (a : α) :
    l.contains a = true ↔ a ∈ l := by
  unfold List.contains
  exact List.elem_iff

/-! ### hasRole -/

/-- C1: `hasRole(q)` is alias-normalised equality. It is true exactly when the normalised
current role (`role || user?.role`) equals the normalised required role; so with a current
role of `CUSTOMER` or `USER` both `hasRole('CUSTOMER')` and `hasRole('USER')` are true, and
with any other current role `hasRole(q)` is true exactly when `q` is that role. -/
theorem hasRole_iff_normalize_eq (s : AuthState) (q : JsStr) :
    (hasRole s q = true ↔ normalize (currentRole s) = normalize q) ∧
    (currentRole s = JsStr.str "CUSTOMER" ∨ currentRole s = JsStr.str "USER" →
      hasRole s (JsStr.str "CUSTOMER") = true ∧ hasRole s (JsStr.str "USER") = true) ∧
    (currentRole s ≠ JsStr.str "CUSTOMER" → currentRole s ≠ JsStr.str "USER" →
      (hasRole s q = true ↔ q = currentRole s)) := by
  refine ⟨?_, ?_, ?_⟩
  · unfold hasRole normalize
    by_cases hc : currentRole s = JsStr.str "USER" <;>
      by_cases hq : q = JsStr.str "USER" <;>
      simp [hc, hq]
    all_goals (intro h; exact h.symm)
  · rintro (hc | hc) <;> simp [hasRole, hc]
  · intro h1 h2
    unfold hasRole
    by_cases hq : q = JsStr.str "USER"
    · subst hq
      simp [h2, h1, Ne.symm h2]
    · simp [h2, hq]
      exact eq_comm

/-- Witness for C1 on the legacy `USER` session: both spellings are accepted, `ADMIN` is not. -/
theorem hasRole_iff_normalize_eq_witness :
    hasRole legacyUserSession (JsStr.str "CUSTOMER") = true ∧
    hasRole legacyUserSession (JsStr.str "USER") = true ∧
    hasRole legacyUserSession (JsStr.str "ADMIN") = false :=
  ⟨((hasRole_iff_normalize_eq legacyUserSession (JsStr.str "CUSTOMER")).2.1
      (Or.inr (by decide))).1,
   ((hasRole_iff_normalize_eq legacyUserSession (JsStr.str "USER")).2.1
      (Or.inr (by decide))).2,
   by decide⟩

/-! ### ProtectedRoute -/

/-- Once past the loading and authentication checks, `ProtectedRoute` is the three role
checks in sequence. -/
theorem protectedRoute_authenticated (s : AuthState) (adminOnly : Bool)
    (requiredRole : Option String) (allowedRoles : Option (List String))
    (hl : s.loading = false) (hu : s.user.isSome = true) (ht : truthyItem s.token = true) :
    ProtectedRoute s adminOnly requiredRole allowedRoles =
      if adminOnly && !isAdmin s then Rendered.navigate "/"
      else if
        (match requiredRole with
          | some r => r != "" && !roleMatches (currentRole s) (normalize (currentRole s)) r
          | none => false)
      then Rendered.navigate "/"
      else if
        (match allowedRoles with
          | some l => !l.isEmpty && !hasAllowedRole (currentRole s) (normalize (currentRole s)) l
          | none => false)
      then Rendered.navigate "/"
      else Rendered.children := by
  have hu' : s.user.isNone = false := by
    cases hs : s.user with
    | none => simp [hs] at hu
    | some u => rfl
  unfold ProtectedRoute
  simp only [hl, hu', ht, normalize_beq]
  simp

/-- The guard's `roleMatches` is alias-normalised equality. -/
theorem roleMatches_iff (c : JsStr) (q : String) :
    roleMatches c (normalize c) q = true ↔ normalize c = normalize (JsStr.str q) := by
  unfold roleMatches
  rw [normalize_str]
  by_cases hq : q = "USER"
  · subst hq
    by_cases hc : c = JsStr.str "USER"
    · simp [hc, normalize]
    · simp [hc, normalize]
  · by_cases hc : c = JsStr.str "USER"
    · subst hc
      simp [hq, normalize]
      exact fun h => h.symm
    · have hn : normalize c = c := by simp [normalize, hc]
      simp [hq, hn, hc]
      intro h1 h2
      rw [h1, h2]

/-- The guard's `hasAllowedRole` is alias-normalised membership. -/
theorem hasAllowedRole_iff (c : JsStr) (l : List String) :
    hasAllowedRole c (normalize c) l = true ↔
      normalize c ∈ l.map (fun r => normalize (JsStr.str r)) := by
  have hmap : l.map (fun r => normalize (JsStr.str r)) =
      (l.map (fun r => if r == "USER" then "CUSTOMER" else r)).map JsStr.str := by
    rw [List.map_map]
    apply List.map_congr_left
    intro r _
    exact normalize_str r
  have hno : (l.map (fun r => if r == "USER" then "CUSTOMER" else r)).contains "USER" = false := by
    rw [Bool.eq_false_iff]
    intro h
    rw [contains_iff_mem, List.mem_map] at h
    obtain ⟨r, _, hr⟩ := h
    by_cases hu : r = "USER"
    · simp [hu] at hr
    · simp [hu] at hr
  unfold hasAllowedRole
  simp only [hno, Bool.false_and, Bool.or_false]
  rw [hmap]
  constructor
  · intro h
    rw [Bool.or_eq_true] at h
    rcases h with h | h
    · exact (contains_iff_mem _ _).mp h
    · rw [Bool.and_eq_true] at h
      obtain ⟨h1, h2⟩ := h
      have hc : c = JsStr.str "USER" := by simpa using h2
      rw [normalize_eq_customer_of_user hc]
      exact List.mem_map.mpr ⟨"CUSTOMER", (contains_iff_mem _ _).mp h1, rfl⟩
  · intro h
    rw [Bool.or_eq_true]
    exact Or.inl ((contains_iff_mem _ _).mpr h)

/-- C2: in a non-loading session without a user or without a token, whatever
`requiredRole` and `allowedRoles` are, `ProtectedRoute` redirects to `/admin/login` when
`adminOnly` is set and to `/login` otherwise; it neither renders the children nor
redirects to `/`. -/
theorem protectedRoute_unauthenticated (s : AuthState) (adminOnly : Bool)
    (requiredRole : Option String) (allowedRoles : Option (List String))
    (hl : s.loading = false) (h : s.user = none ∨ s.token = none) :
    (adminOnly = true →
      ProtectedRoute s adminOnly requiredRole allowedRoles = Rendered.navigate "/admin/login") ∧
    (adminOnly = false →
      ProtectedRoute s adminOnly requiredRole allowedRoles = Rendered.navigate "/login") ∧
    ProtectedRoute s adminOnly requiredRole allowedRoles ≠ Rendered.children ∧
    ProtectedRoute s adminOnly requiredRole allowedRoles ≠ Rendered.navigate "/" := by
  have hd : (s.user.isNone || !truthyItem s.token) = true := by
    rcases h with h | h <;> simp [h, truthyItem]
  have hr : ProtectedRoute s adminOnly requiredRole allowedRoles =
      Rendered.navigate (if adminOnly then "/admin/login" else "/login") := by
    unfold ProtectedRoute
    simp only [hl, hd]
    simp
  rw [hr]
  cases adminOnly <;> simp

/-- Witness for C2: a session that kept a token and a role but has no user, on an
admin-only route that also names a required role. -/
theorem protectedRoute_unauthenticated_witness :
    ProtectedRoute tokenOnlySession true (some "ADMIN") none =
      Rendered.navigate "/admin/login" :=
  (protectedRoute_unauthenticated tokenOnlySession true (some "ADMIN") none rfl
    (Or.inl rfl)).1 rfl

/-- C3 fails as stated at the empty required role: an authenticated `ADMIN` session with
`requiredRole = ''` gets the children although `ADMIN` does not match `''`. -/
theorem protectedRoute_requiredRole_empty_counterexample :
    adminSession.loading = false ∧ adminSession.user.isSome = true ∧
    truthyItem adminSession.token = true ∧
    ProtectedRoute adminSession false (some "") none = Rendered.children ∧
    normalize (currentRole adminSession) ≠ normalize (JsStr.str "") := by
  decide

/-- C3 (amended): in an authenticated, non-loading session (user present, token non-empty)
with current role `c`, for every `adminOnly` flag `a` and every non-empty `requiredRole`
`q` (no `allowedRoles`), `ProtectedRoute` renders the children exactly when
(`a` implies `c = 'ADMIN'`) and `normalize c = normalize q`, and redirects to `/` in every
other case. -/
theorem protectedRoute_requiredRole (s : AuthState) (a : Bool) (q : String)
    (hl : s.loading = false) (hu : s.user.isSome = true) (ht : truthyItem s.token = true)
    (hq : q ≠ "") :
    (ProtectedRoute s a (some q) none = Rendered.children ↔
      ((a = true → currentRole s = JsStr.str "ADMIN") ∧
        normalize (currentRole s) = normalize (JsStr.str q))) ∧
    (¬ ((a = true → currentRole s = JsStr.str "ADMIN") ∧
        normalize (currentRole s) = normalize (JsStr.str q)) →
      ProtectedRoute s a (some q) none = Rendered.navigate "/") := by
  rw [protectedRoute_authenticated s a (some q) none hl hu ht]
  have hm := roleMatches_iff (currentRole s) q
  have hA : isAdmin s = true ↔ currentRole s = JsStr.str "ADMIN" := by simp [isAdmin]
  have hq' : (q != "") = true := by simpa using hq
  simp only [hq', Bool.true_and]
  rw [← hm, ← hA]
  generalize isAdmin s = A
  generalize roleMatches (currentRole s) (normalize (currentRole s)) q = m
  cases a <;> cases A <;> cases m <;> simp

/-- Witness for C3: a `DELIVERY_MAN` session on a route that requires `ADMIN` is sent
to `/`. -/
theorem protectedRoute_requiredRole_witness :
    ProtectedRoute deliverySession false (some "ADMIN") none = Rendered.navigate "/" :=
  (protectedRoute_requiredRole deliverySession false "ADMIN" rfl rfl rfl (by decide)).2
    (by decide)

/-- C4 fails as stated at the empty list: an authenticated session with
`allowedRoles = []` gets the children although its role is in no list. -/
theorem protectedRoute_allowedRoles_empty_counterexample :
    deliverySession.loading = false ∧ deliverySession.user.isSome = true ∧
    truthyItem deliverySession.token = true ∧
    ProtectedRoute deliverySession false none (some []) = Rendered.children ∧
    normalize (currentRole deliverySession) ∉
      ([] : List String).map (fun r => normalize (JsStr.str r)) := by
  decide

/-- C4 (amended): in an authenticated, non-loading session (user present, token non-empty)
with current role `c`, for every non-empty list `l` of allowed roles (`adminOnly` false,
no `requiredRole`), `ProtectedRoute` renders the children exactly when `normalize c` is
among the normalised elements of `l`, and redirects to `/` otherwise. -/
theorem protectedRoute_allowedRoles (s : AuthState) (l : List String)
    (hl : s.loading = false) (hu : s.user.isSome = true) (ht : truthyItem s.token = true)
    (hne : l ≠ []) :
    (ProtectedRoute s false none (some l) = Rendered.children ↔
      normalize (currentRole s) ∈ l.map (fun r => normalize (JsStr.str r))) ∧
    (normalize (currentRole s) ∉ l.map (fun r => normalize (JsStr.str r)) →
      ProtectedRoute s false none (some l) = Rendered.navigate "/") := by
  rw [protectedRoute_authenticated s false none (some l) hl hu ht]
  have hm := hasAllowedRole_iff (currentRole s) l
  have he : l.isEmpty = false := by
    cases l with
    | nil => exact absurd rfl hne
    | cons x xs => rfl
  by_cases hmem : normalize (currentRole s) ∈ l.map (fun r => normalize (JsStr.str r))
  · have hb : hasAllowedRole (currentRole s) (normalize (currentRole s)) l = true := hm.mpr hmem
    simp [he, hb, hmem]
  · have hb : hasAllowedRole (currentRole s) (normalize (currentRole s)) l = false := by
      rw [Bool.eq_false_iff]
      exact fun h => hmem (hm.mp h)
    simp only [he, hb]
    simp [hmem]

/-- Witness for C4: `CUSTOMER` is admitted by `['USER']`, and `USER` by `['CUSTOMER']`. -/
theorem protectedRoute_allowedRoles_witness :
    ProtectedRoute customerSession false none (some ["USER"]) = Rendered.children ∧
    ProtectedRoute legacyUserSession false none (some ["CUSTOMER"]) = Rendered.children :=
  ⟨(protectedRoute_allowedRoles customerSession ["USER"] rfl rfl rfl (by decide)).1.mpr
      (by decide),
   (protectedRoute_allowedRoles legacyUserSession ["CUSTOMER"] rfl rfl rfl (by decide)).1.mpr
      (by decide)⟩

/-! ### Request interceptor -/

/-- The `Authorization` header leaving the request interceptor depends on the stored token
alone: `Bearer <token>` when the token is truthy, no header otherwise. -/
theorem requestInterceptor_authorization_eq (ls : LocalStorage) (config : RequestConfig) :
    (requestInterceptor ls config).headers "Authorization" =
      match ls.getItem "token" with
      | some t => if t != "" then some ("Bearer " ++ t) else none
      | none => none := by
  have hct : ∀ cfg : RequestConfig,
      (if (!truthyItem (cfg.headers "Content-Type") && !cfg.dataIsFormData) = true then
          cfg.setHeader "Content-Type" "application/json"
        else cfg).headers "Authorization" = cfg.headers "Authorization" := by
    intro cfg
    split <;> simp [RequestConfig.setHeader]
  unfold requestInterceptor
  dsimp only
  rw [hct]
  cases h : ls.getItem "token" with
  | none => simp [RequestConfig.deleteHeader]
  | some t =>
    by_cases ht : t = ""
    · simp [ht, RequestConfig.deleteHeader]
    · simp [ht, RequestConfig.setHeader]

/-- Whether `JSON.stringify` throws or not, `login` updates the three values in memory
and writes the `token` entry. -/
theorem login_always (JSON : JsonApi) (t : Option String) (u : Option User) (c : Client) :
    (login JSON t u c).1.auth.token = t ∧
    (login JSON t u c).1.auth.user = u ∧
    (login JSON t u c).1.auth.role = (roleOf u).or (JsStr.str "CUSTOMER") ∧
    (login JSON t u c).1.auth.loading = c.auth.loading ∧
    (login JSON t u c).1.localStorage.getItem "token" = some (itemToStr t) := by
  unfold login
  cases JSON.stringify u with
  | error e => simp [LocalStorage.getItem, LocalStorage.setItem]
  | ok text => simp [LocalStorage.getItem, LocalStorage.setItem]

/-- When `JSON.stringify(userData)` returns a text, `login` resolves with the `user` and
`role` entries written and the axios default set. -/
theorem login_of_stringify_ok (JSON : JsonApi) (t : Option String) (u : Option User)
    (c : Client) (text : String) (h : JSON.stringify u = Except.ok text) :
    (login JSON t u c).2 = Except.ok () ∧
    (login JSON t u c).1.localStorage.getItem "user" = some text ∧
    (login JSON t u c).1.localStorage.getItem "role" =
      some ((roleOf u).or (JsStr.str "CUSTOMER")).toStr ∧
    (login JSON t u c).1.axiosAuthorization = some ("Bearer " ++ itemToStr t) := by
  unfold login
  rw [h]
  simp [LocalStorage.getItem, LocalStorage.setItem]

/-- When `JSON.stringify(userData)` throws, `login` rejects with that error, and the
`user` and `role` entries and the axios default are what they were before the call. -/
theorem login_of_stringify_error (JSON : JsonApi) (t : Option String) (u : Option User)
    (c : Client) (e : String) (h : JSON.stringify u = Except.error e) :
    (login JSON t u c).2 = Except.error e ∧
    (login JSON t u c).1.localStorage.getItem "user" = c.localStorage.getItem "user" ∧
    (login JSON t u c).1.localStorage.getItem "role" = c.localStorage.getItem "role" ∧
    (login JSON t u c).1.axiosAuthorization = c.axiosAuthorization := by
  unfold login
  rw [h]
  simp [LocalStorage.getItem, LocalStorage.setItem]

/-- After `logout` none of the three storage entries exists. -/
theorem logout_getItem (c : Client) :
    (logout c).localStorage.getItem "token" = none ∧
    (logout c).localStorage.getItem "user" = none ∧
    (logout c).localStorage.getItem "role" = none := by
  simp [logout, LocalStorage.getItem, LocalStorage.removeItem]

/-- C5 fails as stated when the stored token is the empty string: a token is stored, yet
the outgoing config carries no `Authorization` header instead of `'Bearer ' + t`. -/
theorem requestInterceptor_empty_token_counterexample :
    emptyTokenStorage.getItem "token" = some "" ∧
    (requestInterceptor emptyTokenStorage staleConfig).headers "Authorization" ≠
      some ("Bearer " ++ "") ∧
    (requestInterceptor emptyTokenStorage staleConfig).headers "Authorization" = none := by
  decide

/-- C5 (amended): for every request config (also one carrying a stale `Authorization`
header) and every storage state, the outgoing `Authorization` header is decided by the
token read from storage at that moment only: `'Bearer ' + t` when a non-empty token `t` is
stored, and no header at all when no token or the empty string is stored. So a request
issued after `login(t, u)` with non-empty `t` carries `'Bearer ' + t`, and a request issued
after `logout` carries none. -/
theorem requestInterceptor_authorization (ls : LocalStorage) (config : RequestConfig) :
    (∀ t : String, ls.getItem "token" = some t → t ≠ "" →
      (requestInterceptor ls config).headers "Authorization" = some ("Bearer " ++ t)) ∧
    (ls.getItem "token" = none ∨ ls.getItem "token" = some "" →
      (requestInterceptor ls config).headers "Authorization" = none) ∧
    (∀ (JSON : JsonApi) (t : String) (u : Option User) (c : Client), t ≠ "" →
      (requestInterceptor (login JSON (some t) u c).1.localStorage config).headers
          "Authorization" =
        some ("Bearer " ++ t)) ∧
    (∀ c : Client,
      (requestInterceptor (logout c).localStorage config).headers "Authorization" = none) := by
  refine ⟨?_, ?_, ?_, ?_⟩
  · intro t h ht
    rw [requestInterceptor_authorization_eq, h]
    simp [ht]
  · intro h
    rw [requestInterceptor_authorization_eq]
    rcases h with h | h <;> simp [h]
  · intro JSON t u c ht
    rw [requestInterceptor_authorization_eq, (login_always JSON (some t) u c).2.2.2.2]
    simp [ht, itemToStr]
  · intro c
    rw [requestInterceptor_authorization_eq, (logout_getItem c).1]

/-- Witness for C5: a stale config sent after `login("tok", admin)` carries `Bearer tok`,
and sent after a `logout` carries no `Authorization` header. -/
theorem requestInterceptor_authorization_witness :
    (requestInterceptor
        (login sampleJSON (some "tok") (some adminUser) freshClient).1.localStorage
        staleConfig).headers "Authorization" = some ("Bearer " ++ "tok") ∧
    (requestInterceptor
        (logout (login sampleJSON (some "tok") (some adminUser) freshClient).1).localStorage
        staleConfig).headers "Authorization" = none :=
  ⟨(requestInterceptor_authorization LocalStorage.empty staleConfig).2.2.1
      sampleJSON "tok" (some adminUser) freshClient (by decide),
   (requestInterceptor_authorization LocalStorage.empty staleConfig).2.2.2
      (login sampleJSON (some "tok") (some adminUser) freshClient).1⟩

/-! ### login and logout -/

/-- The role `login` computes, `userData?.role || 'CUSTOMER'`, is a non-empty string. -/
theorem userRole_spec (u : Option User) :
    (∀ r : String, roleOf u = JsStr.str r → r ≠ "" →
      (roleOf u).or (JsStr.str "CUSTOMER") = JsStr.str r) ∧
    ((roleOf u).truthy = false →
      (roleOf u).or (JsStr.str "CUSTOMER") = JsStr.str "CUSTOMER") ∧
    (∃ r : String, r ≠ "" ∧ (roleOf u).or (JsStr.str "CUSTOMER") = JsStr.str r) := by
  refine ⟨?_, ?_, ?_⟩
  · intro r h hr
    simp [JsStr.or, h, JsStr.truthy, hr]
  · intro h
    simp [JsStr.or, h]
  · cases h : roleOf u with
    | undefined => exact ⟨"CUSTOMER", by decide, by simp [JsStr.or, JsStr.truthy]⟩
    | null => exact ⟨"CUSTOMER", by decide, by simp [JsStr.or, JsStr.truthy]⟩
    | str r =>
      by_cases hr : r = ""
      · exact ⟨"CUSTOMER", by decide, by simp [JsStr.or, JsStr.truthy, hr]⟩
      · exact ⟨r, hr, by simp [JsStr.or, JsStr.truthy, hr]⟩

/-- C6 fails as stated when `JSON.stringify(userData)` throws: `login` has then updated
token, user and role in memory and written the `token` entry, but neither the `user` nor
the `role` entry, so only one of the three keys is updated. -/
theorem login_partial_write_counterexample :
    (login throwingJSON (some "tok") (some adminUser) freshClient).2 =
      Except.error "TypeError: cyclic object value" ∧
    (login throwingJSON (some "tok") (some adminUser) freshClient).1.auth.token = some "tok" ∧
    (login throwingJSON (some "tok") (some adminUser) freshClient).1.auth.role =
      JsStr.str "ADMIN" ∧
    (login throwingJSON (some "tok") (some adminUser) freshClient).1.localStorage.getItem
      "token" = some "tok" ∧
    (login throwingJSON (some "tok") (some adminUser) freshClient).1.localStorage.getItem
      "user" = none ∧
    (login throwingJSON (some "tok") (some adminUser) freshClient).1.localStorage.getItem
      "role" = none := by
  exact ⟨rfl, rfl, rfl, rfl, rfl, rfl⟩

/-- C6 (amended): after `login(t, u)`, from any prior state, the role in memory is `u.role`
when `u` carries a role (a non-empty string) and `'CUSTOMER'` otherwise (`u` null, `role`
missing, null or empty), the token and user in memory are `t` and `u`, and the `token`
entry holds `String(t)`. When `JSON.stringify(u)` returns a text, `login` resolves with
the `user` entry holding that text and the `role` entry holding the role in memory, so all
three entries are written. When `JSON.stringify(u)` throws, `login` rejects with that
error and the `user` and `role` entries are what they were before the call. -/
theorem login_updates_session (JSON : JsonApi) (t : Option String) (u : Option User)
    (c : Client) :
    (∀ r : String, roleOf u = JsStr.str r → r ≠ "" →
      (login JSON t u c).1.auth.role = JsStr.str r) ∧
    ((roleOf u).truthy = false → (login JSON t u c).1.auth.role = JsStr.str "CUSTOMER") ∧
    (login JSON t u c).1.auth.token = t ∧
    (login JSON t u c).1.auth.user = u ∧
    (login JSON t u c).1.localStorage.getItem "token" = some (itemToStr t) ∧
    (∀ text : String, JSON.stringify u = Except.ok text →
      (login JSON t u c).2 = Except.ok () ∧
      (login JSON t u c).1.localStorage.getItem "user" = some text ∧
      (login JSON t u c).1.localStorage.getItem "role" =
        some (login JSON t u c).1.auth.role.toStr ∧
      (∀ r : String, roleOf u = JsStr.str r → r ≠ "" →
        (login JSON t u c).1.localStorage.getItem "role" = some r) ∧
      ((roleOf u).truthy = false →
        (login JSON t u c).1.localStorage.getItem "role" = some "CUSTOMER")) ∧
    (∀ e : String, JSON.stringify u = Except.error e →
      (login JSON t u c).2 = Except.error e ∧
      (login JSON t u c).1.localStorage.getItem "user" = c.localStorage.getItem "user" ∧
      (login JSON t u c).1.localStorage.getItem "role" = c.localStorage.getItem "role") := by
  obtain ⟨ht, hu, hrole, _, htok⟩ := login_always JSON t u c
  refine ⟨?_, ?_, ht, hu, htok, ?_, ?_⟩
  · intro r h hr
    rw [hrole, (userRole_spec u).1 r h hr]
  · intro h
    rw [hrole, (userRole_spec u).2.1 h]
  · intro text h
    obtain ⟨h1, h2, h3, _⟩ := login_of_stringify_ok JSON t u c text h
    refine ⟨h1, h2, ?_, ?_, ?_⟩
    · rw [h3, hrole]
    · intro r hr hne
      rw [h3, (userRole_spec u).1 r hr hne]
      rfl
    · intro hf
      rw [h3, (userRole_spec u).2.1 hf]
      rfl
  · intro e h
    obtain ⟨h1, h2, h3, _⟩ := login_of_stringify_error JSON t u c e h
    exact ⟨h1, h2, h3⟩

/-- Witness for C6: logging an administrator in with a `JSON` that serialises the record,
and with one that throws. -/
theorem login_updates_session_witness :
    ((login sampleJSON (some "tok") (some adminUser) freshClient).2 = Except.ok () ∧
      (login sampleJSON (some "tok") (some adminUser) freshClient).1.localStorage.getItem
        "role" = some "ADMIN") ∧
    ((login throwingJSON (some "tok") (some adminUser) freshClient).2 =
        Except.error "TypeError: cyclic object value" ∧
      (login throwingJSON (some "tok") (some adminUser) freshClient).1.localStorage.getItem
        "role" = none) :=
  ⟨⟨((login_updates_session sampleJSON (some "tok") (some adminUser) freshClient).2.2.2.2.2.1
        "admin-record" rfl).1,
    ((login_updates_session sampleJSON (some "tok") (some adminUser) freshClient).2.2.2.2.2.1
        "admin-record" rfl).2.2.2.1 "ADMIN" rfl (by decide)⟩,
   ⟨((login_updates_session throwingJSON (some "tok") (some adminUser) freshClient).2.2.2.2.2.2
        "TypeError: cyclic object value" rfl).1,
    ((login_updates_session throwingJSON (some "tok") (some adminUser) freshClient).2.2.2.2.2.2
        "TypeError: cyclic object value" rfl).2.2⟩⟩

/-- C7: after `logout()`, from any prior state, token, user and role in memory are `null`,
none of the storage keys `token`, `user`, `role` exists, and the default `Authorization`
header is removed; these session components are the same whatever the prior state was,
and a second `logout` changes nothing. -/
theorem logout_clears_session (c : Client) :
    (logout c).auth.token = none ∧ (logout c).auth.user = none ∧
    (logout c).auth.role = JsStr.null ∧
    (logout c).localStorage.getItem "token" = none ∧
    (logout c).localStorage.getItem "user" = none ∧
    (logout c).localStorage.getItem "role" = none ∧
    (logout c).axiosAuthorization = none ∧
    (∀ c2 : Client, sessionView (logout c) = sessionView (logout c2)) ∧
    logout (logout c) = logout c := by
  obtain ⟨h1, h2, h3⟩ := logout_getItem c
  refine ⟨rfl, rfl, rfl, h1, h2, h3, rfl, ?_, ?_⟩
  · intro c2
    obtain ⟨k1, k2, k3⟩ := logout_getItem c2
    simp only [sessionView, h1, h2, h3, k1, k2, k3]
    rfl
  · have hls : (logout (logout c)).localStorage = (logout c).localStorage := by
      funext k
      simp only [logout, LocalStorage.removeItem]
      by_cases hk1 : k = "role" <;> by_cases hk2 : k = "user" <;> by_cases hk3 : k = "token" <;>
        simp [hk1, hk2, hk3]
    have hauth : (logout (logout c)).auth = (logout c).auth := rfl
    have hax : (logout (logout c)).axiosAuthorization = (logout c).axiosAuthorization := rfl
    cases hx : logout (logout c) with
    | mk a1 l1 x1 =>
      cases hy : logout c with
      | mk a2 l2 x2 =>
        rw [hx, hy] at hls hauth hax
        simp only at hls hauth hax
        rw [hls, hauth, hax]

/-- C10: after `login(t, u)` with `u.role = 'ADMIN'`, from any prior state, `isAdmin()` is
true; after a `logout()`, from any state, and so also after that login, `isAdmin()` is
false. -/
theorem isAdmin_after_login_logout (JSON : JsonApi) (t : Option String) (u : Option User)
    (c : Client) (hu : roleOf u = JsStr.str "ADMIN") :
    isAdmin (login JSON t u c).1.auth = true ∧
    isAdmin (logout (login JSON t u c).1).auth = false ∧
    (∀ c2 : Client, isAdmin (logout c2).auth = false) := by
  refine ⟨?_, ?_, ?_⟩
  · have hrole : (login JSON t u c).1.auth.role = JsStr.str "ADMIN" := by
      rw [(login_always JSON t u c).2.2.1]
      exact (userRole_spec u).1 "ADMIN" hu (by decide)
    simp [isAdmin, currentRole, hrole, JsStr.or, JsStr.truthy]
  · simp [isAdmin, currentRole, logout, JsStr.or, JsStr.truthy, roleOf]
  · intro c2
    simp [isAdmin, currentRole, logout, JsStr.or, JsStr.truthy, roleOf]

/-- Witness for C10 with the administrator record. -/
theorem isAdmin_after_login_logout_witness :
    roleOf (some adminUser) = JsStr.str "ADMIN" ∧
    isAdmin (login sampleJSON (some "tok") (some adminUser) freshClient).1.auth = true ∧
    isAdmin (logout (login sampleJSON (some "tok") (some adminUser) freshClient).1).auth =
      false :=
  ⟨rfl,
   (isAdmin_after_login_logout sampleJSON (some "tok") (some adminUser) freshClient rfl).1,
   (isAdmin_after_login_logout sampleJSON (some "tok") (some adminUser) freshClient rfl).2.1⟩

/-! ### Session initialisation -/

/-- The `user` initialiser never throws: a missing, empty or unparseable entry gives
`null`. -/
theorem initUser_ok (JSON : JsonApi) (ls : LocalStorage) :
    initUser JSON ls = Except.ok
      (match ls.getItem "user" with
        | some text =>
          if text != "" then
            (match JSON.parse text with
              | Except.ok v => v
              | Except.error _ => none)
          else none
        | none => none) := by
  unfold initUser
  cases ls.getItem "user" with
  | none => rfl
  | some text =>
    by_cases ht : text = ""
    · subst ht
      rfl
    · have ht' : (text != "") = true := by simpa using ht
      simp only [ht', if_true]
      cases JSON.parse text with
      | ok v => rfl
      | error e => rfl

/-- The fallback of the `role` initialiser (the `try` block, lines 40-45) never throws. -/
theorem initRole_fallback_ok (JSON : JsonApi) (ls : LocalStorage) :
    tryCatch
        (match ls.getItem "user" with
          | some storedUser =>
            if storedUser != "" then (do let v ← JSON.parse storedUser; pure (roleOf v))
            else pure JsStr.null
          | none => pure JsStr.null)
        (fun _ => (pure JsStr.null : Except String JsStr)) =
      Except.ok
        (match ls.getItem "user" with
          | some text =>
            if text != "" then
              (match JSON.parse text with
                | Except.ok v => roleOf v
                | Except.error _ => JsStr.null)
            else JsStr.null
          | none => JsStr.null) := by
  cases ls.getItem "user" with
  | none => rfl
  | some text =>
    by_cases ht : text = ""
    · subst ht
      rfl
    · have ht' : (text != "") = true := by simpa using ht
      simp only [ht', if_true]
      cases JSON.parse text with
      | ok v => rfl
      | error e => rfl

/-- The `role` initialiser never throws: the stored role when it is non-empty, else the
role of the parsed user, else `null`. -/
theorem initRole_ok (JSON : JsonApi) (ls : LocalStorage) :
    initRole JSON ls = Except.ok
      (if truthyItem (ls.getItem "role") then JsStr.str ((ls.getItem "role").getD "")
        else
          (match ls.getItem "user" with
            | some text =>
              if text != "" then
                (match JSON.parse text with
                  | Except.ok v => roleOf v
                  | Except.error _ => JsStr.null)
              else JsStr.null
            | none => JsStr.null)) := by
  unfold initRole
  cases hr : ls.getItem "role" with
  | none =>
    simp only [truthyItem]
    exact initRole_fallback_ok JSON ls
  | some r =>
    by_cases hre : r = ""
    · subst hre
      simp only [truthyItem]
      exact initRole_fallback_ok JSON ls
    · have hr' : (r != "") = true := by simpa using hre
      simp only [truthyItem, hr', if_true, Option.getD_some]
      rfl

/-- The state `AuthProvider` starts with, in closed form. -/
theorem authProvider_ok (JSON : JsonApi) (ls : LocalStorage) :
    AuthProvider JSON ls = Except.ok
      { user :=
          (match ls.getItem "user" with
            | some text =>
              if text != "" then
                (match JSON.parse text with
                  | Except.ok v => v
                  | Except.error _ => none)
              else none
            | none => none)
        token := ls.getItem "token"
        role :=
          (if truthyItem (ls.getItem "role") then JsStr.str ((ls.getItem "role").getD "")
            else
              (match ls.getItem "user" with
                | some text =>
                  if text != "" then
                    (match JSON.parse text with
                      | Except.ok v => roleOf v
                      | Except.error _ => JsStr.null)
                  else JsStr.null
                | none => JsStr.null))
        loading := true } := by
  unfold AuthProvider initToken
  rw [initUser_ok, initRole_ok]
  rfl

/-- C8 fails as stated: with a stored token, a stored role and a `user` entry that is not
JSON, initialisation yields a session that still has the token and the role; it is not
the fully-empty session. -/
theorem authProvider_corrupt_user_counterexample :
    sampleJSON.parse "not json" = Except.error "SyntaxError" ∧
    corruptUserStorage.getItem "user" = some "not json" ∧
    AuthProvider sampleJSON corruptUserStorage =
      Except.ok { user := none, token := some "tok", role := JsStr.str "ADMIN", loading := true } ∧
    AuthProvider sampleJSON corruptUserStorage ≠
      Except.ok { user := none, token := none, role := JsStr.null, loading := true } ∧
    isAdmin { user := none, token := some "tok", role := JsStr.str "ADMIN", loading := true } =
      true := by
  refine ⟨rfl, rfl, rfl, ?_, rfl⟩
  intro h
  have h2 : AuthProvider sampleJSON corruptUserStorage =
      Except.ok { user := none, token := some "tok", role := JsStr.str "ADMIN", loading := true } :=
    rfl
  rw [h2] at h
  injection h with h3
  injection h3 with _ h4
  exact absurd h4 (by decide)

/-- C8 (amended): for every content of the storage entries and every behaviour of
`JSON.parse`, session initialisation completes without raising an error, and each part of
its result is hydrated from its own entry: the token is the stored `token` entry; the user
is what `JSON.parse` makes of a non-empty `user` entry, and `null` when that entry is
missing, empty or corrupt; the role is the stored `role` entry when that is non-empty, and
otherwise the role of the parsed user, `null` when the `user` entry is missing, empty or
corrupt. So when the stored `user` entry is corrupt, the user is `null`, the role is the
stored role or `null`, and `ProtectedRoute` treats the session as logged out (it redirects
to the login page whatever the route asks for); that session is the fully-empty one exactly
when no token and no non-empty role are stored. -/
theorem authProvider_total (JSON : JsonApi) (ls : LocalStorage) :
    ∃ s : AuthState, AuthProvider JSON ls = Except.ok s ∧
      s.loading = true ∧
      s.token = ls.getItem "token" ∧
      s.user =
        (match ls.getItem "user" with
          | some text =>
            if text != "" then
              (match JSON.parse text with
                | Except.ok v => v
                | Except.error _ => none)
            else none
          | none => none) ∧
      s.role =
        (if truthyItem (ls.getItem "role") then JsStr.str ((ls.getItem "role").getD "")
          else
            (match ls.getItem "user" with
              | some text =>
                if text != "" then
                  (match JSON.parse text with
                    | Except.ok v => roleOf v
                    | Except.error _ => JsStr.null)
                else JsStr.null
              | none => JsStr.null)) ∧
      (∀ (text e : String), ls.getItem "user" = some text → JSON.parse text = Except.error e →
        s.user = none ∧
        s.role =
          (if truthyItem (ls.getItem "role") then JsStr.str ((ls.getItem "role").getD "")
            else JsStr.null) ∧
        (∀ (a : Bool) (q : Option String) (l : Option (List String)),
          ProtectedRoute { s with loading := false } a q l =
            Rendered.navigate (if a then "/admin/login" else "/login")) ∧
        (s = { user := none, token := none, role := JsStr.null, loading := true } ↔
          ls.getItem "token" = none ∧ truthyItem (ls.getItem "role") = false)) := by
  refine ⟨_, authProvider_ok JSON ls, rfl, rfl, rfl, rfl, ?_⟩
  intro text e hu hp
  have huser : (match ls.getItem "user" with
      | some text =>
        if text != "" then
          (match JSON.parse text with
            | Except.ok v => v
            | Except.error _ => none)
        else none
      | none => (none : Option User)) = none := by
    rw [hu]
    by_cases ht : text = ""
    · simp [ht]
    · simp [ht, hp]
  have hrole : (match ls.getItem "user" with
      | some text =>
        if text != "" then
          (match JSON.parse text with
            | Except.ok v => roleOf v
            | Except.error _ => JsStr.null)
        else JsStr.null
      | none => JsStr.null) = JsStr.null := by
    rw [hu]
    by_cases ht : text = ""
    · simp [ht]
    · simp [ht, hp]
  simp only [huser, hrole]
  refine ⟨trivial, trivial, ?_, ?_⟩
  · intro a q l
    unfold ProtectedRoute
    simp
  · cases hr : truthyItem (ls.getItem "role") <;> simp

/-- Witness for C8 on the storage with a corrupt `user` entry: the guard sends the
hydrated session to `/login`. -/
theorem authProvider_total_witness :
    ∃ s : AuthState, AuthProvider sampleJSON corruptUserStorage = Except.ok s ∧
      s.token = some "tok" ∧ s.user = none ∧ s.role = JsStr.str "ADMIN" ∧
      ProtectedRoute { s with loading := false } false (some "ADMIN") none =
        Rendered.navigate "/login" := by
  obtain ⟨s, hs, _, htok, _, _, hc⟩ := authProvider_total sampleJSON corruptUserStorage
  obtain ⟨hu, hr, hg, _⟩ := hc "not json" "SyntaxError" rfl rfl
  exact ⟨s, hs, htok, hu, hr, hg false (some "ADMIN") none⟩

/-! ### Memory and storage in lockstep -/

/-- What initialisation hydrates from the storage `login` leaves after a normal return:
the stringified token, the user read back from the serialised text, and the role that is
in memory. -/
theorem authProvider_after_login (JSON : JsonApi) (t : Option String) (u : Option User)
    (c : Client) (text : String) (h : JSON.stringify u = Except.ok text) :
    AuthProvider JSON (login JSON t u c).1.localStorage =
      Except.ok
        { user :=
            (if text != "" then
              (match JSON.parse text with
                | Except.ok v => v
                | Except.error _ => none)
            else none)
          token := some (itemToStr t)
          role := (login JSON t u c).1.auth.role
          loading := true } := by
  obtain ⟨_, _, hrole, _, htok⟩ := login_always JSON t u c
  obtain ⟨_, huser, hr, _⟩ := login_of_stringify_ok JSON t u c text h
  obtain ⟨r, hne, hor⟩ := (userRole_spec u).2.2
  have hne' : (r != "") = true := by simpa using hne
  rw [authProvider_ok, htok, huser, hr, hrole, hor]
  simp only [truthyItem, JsStr.toStr, hne', if_true, Option.getD_some]

/-- When `JSON.stringify(userData)` throws, the storage `login` leaves is the storage it
found with the `token` entry replaced. -/
theorem login_storage_of_stringify_error (JSON : JsonApi) (t : Option String)
    (u : Option User) (c : Client) (e : String) (h : JSON.stringify u = Except.error e) :
    (login JSON t u c).1.localStorage = c.localStorage.setItem "token" (itemToStr t) := by
  unfold login
  rw [h]

/-- C9 fails as stated on two inputs the code accepts. After `login(null, u)` the token in
memory is `null` but the stored entry is the text `'null'`, which initialisation hydrates
as a token. After a `login` whose `JSON.stringify` throws, user and role are in memory but
not in storage, so initialisation hydrates neither. -/
theorem memory_storage_lockstep_counterexample :
    ((login sampleJSON none (some adminUser) freshClient).2 = Except.ok () ∧
      (login sampleJSON none (some adminUser) freshClient).1.auth.token = none ∧
      AuthProvider sampleJSON (login sampleJSON none (some adminUser) freshClient).1.localStorage =
        Except.ok
          { user := some adminUser, token := some "null", role := JsStr.str "ADMIN",
            loading := true }) ∧
    ((login throwingJSON (some "tok") (some adminUser) freshClient).1.auth.user =
        some adminUser ∧
      (login throwingJSON (some "tok") (some adminUser) freshClient).1.auth.role =
        JsStr.str "ADMIN" ∧
      AuthProvider throwingJSON
          (login throwingJSON (some "tok") (some adminUser) freshClient).1.localStorage =
        Except.ok { user := none, token := some "tok", role := JsStr.null, loading := true }) := by
  exact ⟨⟨rfl, rfl, rfl⟩, ⟨rfl, rfl, rfl⟩⟩

/-- C9 (amended): after `logout()`, from any prior state, the token, user and role in memory
are exactly the session that initialisation hydrates from the storage left behind. After a
`login(t, u)` that returns normally (`JSON.stringify(u)` yields a text), the role in memory
is the hydrated role, and the whole of token, user and role in memory equals the hydrated
session exactly when `t` is a string (not `null`) and initialisation reads `u` back from
the stored text; this is so in particular when the text is non-empty and `JSON.parse`
returns `u` for it. After a `login(t, u)` whose `JSON.stringify(u)` throws, initialisation
hydrates the storage found before the call with its `token` entry replaced by
`String(t)`, whatever `u` is. -/
theorem memory_storage_lockstep (JSON : JsonApi) (t : Option String) (u : Option User)
    (c : Client) :
    AuthProvider JSON (logout c).localStorage =
      Except.ok
        { user := (logout c).auth.user, token := (logout c).auth.token,
          role := (logout c).auth.role, loading := true } ∧
    (∀ text : String, JSON.stringify u = Except.ok text →
      (∃ s : AuthState, AuthProvider JSON (login JSON t u c).1.localStorage = Except.ok s ∧
        s.role = (login JSON t u c).1.auth.role) ∧
      (AuthProvider JSON (login JSON t u c).1.localStorage =
          Except.ok
            { user := (login JSON t u c).1.auth.user, token := (login JSON t u c).1.auth.token,
              role := (login JSON t u c).1.auth.role, loading := true } ↔
        (∃ tok : String, t = some tok) ∧
          (if text != "" then
            (match JSON.parse text with
              | Except.ok v => v
              | Except.error _ => none)
          else none) = u)) ∧
    (∀ tok text : String, t = some tok → JSON.stringify u = Except.ok text → text ≠ "" →
      JSON.parse text = Except.ok u →
      AuthProvider JSON (login JSON t u c).1.localStorage =
        Except.ok
          { user := (login JSON t u c).1.auth.user, token := (login JSON t u c).1.auth.token,
            role := (login JSON t u c).1.auth.role, loading := true }) ∧
    (∀ e : String, JSON.stringify u = Except.error e →
      AuthProvider JSON (login JSON t u c).1.localStorage =
        AuthProvider JSON (c.localStorage.setItem "token" (itemToStr t))) := by
  obtain ⟨hmt, hmu, _, _, _⟩ := login_always JSON t u c
  have hiff : ∀ text : String, JSON.stringify u = Except.ok text →
      (AuthProvider JSON (login JSON t u c).1.localStorage =
          Except.ok
            { user := (login JSON t u c).1.auth.user, token := (login JSON t u c).1.auth.token,
              role := (login JSON t u c).1.auth.role, loading := true } ↔
        (∃ tok : String, t = some tok) ∧
          (if text != "" then
            (match JSON.parse text with
              | Except.ok v => v
              | Except.error _ => none)
          else none) = u) := by
    intro text h
    rw [authProvider_after_login JSON t u c text h, hmt, hmu]
    constructor
    · intro heq
      injection heq with heq
      injection heq with h1 h2 _ _
      refine ⟨?_, h1⟩
      cases t with
      | none => simp at h2
      | some tok => exact ⟨tok, rfl⟩
    · rintro ⟨⟨tok, htok⟩, h1⟩
      rw [h1, htok]
      rfl
  refine ⟨?_, ?_, ?_, ?_⟩
  · obtain ⟨h1, h2, h3⟩ := logout_getItem c
    rw [authProvider_ok, h1, h2, h3]
    rfl
  · intro text h
    exact ⟨⟨_, authProvider_after_login JSON t u c text h, rfl⟩, hiff text h⟩
  · intro tok text htok h hne hp
    refine (hiff text h).mpr ⟨⟨tok, htok⟩, ?_⟩
    have hne' : (text != "") = true := by simpa using hne
    simp only [hne', if_true, hp]
  · intro e h
    rw [login_storage_of_stringify_error JSON t u c e h]

/-- Witness for C9: the administrator record with a string token, which the sample `JSON`
serialises to a non-empty text and parses back. -/
theorem memory_storage_lockstep_witness :
    AuthProvider sampleJSON
        (login sampleJSON (some "tok") (some adminUser) freshClient).1.localStorage =
      Except.ok
        { user := some adminUser, token := some "tok", role := JsStr.str "ADMIN",
          loading := true } ∧
    AuthProvider sampleJSON (logout freshClient).localStorage =
      Except.ok { user := none, token := none, role := JsStr.null, loading := true } :=
  ⟨(memory_storage_lockstep sampleJSON (some "tok") (some adminUser) freshClient).2.2.1
      "tok" "admin-record" rfl rfl (by decide) rfl,
   (memory_storage_lockstep sampleJSON (some "tok") (some adminUser) freshClient).1⟩

/-! ### Response error handler -/

/-- The page the handler leaves differs from the page it found in the console at most. -/
theorem responseErrorHandler_page (error : AxiosError) (p : Page) :
    (responseErrorHandler error p).1.client = p.client ∧
    (responseErrorHandler error p).1.location = p.location := by
  unfold responseErrorHandler
  dsimp only
  split
  · exact ⟨rfl, rfl⟩
  · split
    · exact ⟨rfl, rfl⟩
    · split
      · split
        · exact ⟨rfl, rfl⟩
        · exact ⟨rfl, rfl⟩
      · exact ⟨rfl, rfl⟩

/-- On a 401 the handler does act: it logs the authentication failure, with the stored
token seen as present, and the token is still stored afterwards. -/
theorem responseErrorHandler_unauthorized_logs :
    (responseErrorHandler unauthorizedError adminPage).1.console =
      [ConsoleEntry.unauthorized (JsStr.str "/orders/all") (JsStr.str "Authentication failed")
        true] ∧
    (responseErrorHandler unauthorizedError adminPage).1.client.localStorage.getItem "token" =
      some "tok" := by
  exact ⟨rfl, rfl⟩

/-- C11: for every failed response (every status, also 401 and 403, and a failure with
no response) and every page state, the response error handler leaves the stored `token`,
`user` and `role` entries, the whole session store and `window.location` as they were (no
session teardown, no redirect), and returns `Promise.reject` of the very error it
received. -/
theorem responseErrorHandler_frame (error : AxiosError) (p : Page) :
    (responseErrorHandler error p).1.client.localStorage.getItem "token" =
      p.client.localStorage.getItem "token" ∧
    (responseErrorHandler error p).1.client.localStorage.getItem "user" =
      p.client.localStorage.getItem "user" ∧
    (responseErrorHandler error p).1.client.localStorage.getItem "role" =
      p.client.localStorage.getItem "role" ∧
    (responseErrorHandler error p).1.client.localStorage = p.client.localStorage ∧
    (responseErrorHandler error p).1.client.auth = p.client.auth ∧
    (responseErrorHandler error p).1.client.axiosAuthorization = p.client.axiosAuthorization ∧
    (responseErrorHandler error p).1.location = p.location ∧
    (responseErrorHandler error p).2 = Promise.reject error := by
  obtain ⟨hc, hloc⟩ := responseErrorHandler_page error p
  rw [hc]
  exact ⟨rfl, rfl, rfl, rfl, rfl, rfl, hloc, rfl⟩

/-! ### The guard and `hasRole` agree -/

/-- The session store's `hasRole` is alias-normalised equality. -/
theorem hasRole_eq_true_iff (s : AuthState) (q : JsStr) :
    hasRole s q = true ↔ normalize (currentRole s) = normalize q := by
  unfold hasRole normalize
  by_cases hc : currentRole s = JsStr.str "USER" <;>
    by_cases hq : q = JsStr.str "USER" <;>
    simp [hc, hq]
  all_goals (intro h; exact h.symm)

/-- C12: the guard's own required-role check and `hasRole` decide the same predicate. In
every authenticated, non-loading session (user present, token truthy), for every non-empty
required role `q` with `adminOnly` false and no `allowedRoles`, `ProtectedRoute` renders
the children exactly when `hasRole(q)` is true on that session. -/
theorem protectedRoute_iff_hasRole (s : AuthState) (q : String)
    (hl : s.loading = false) (hu : s.user.isSome = true) (ht : truthyItem s.token = true)
    (hq : q ≠ "") :
    ProtectedRoute s false (some q) none = Rendered.children ↔
      hasRole s (JsStr.str q) = true := by
  rw [protectedRoute_authenticated s false (some q) none hl hu ht,
    hasRole_eq_true_iff s (JsStr.str q), ← roleMatches_iff (currentRole s) q]
  have hq' : (q != "") = true := by simpa using hq
  simp only [hq', Bool.true_and]
  generalize roleMatches (currentRole s) (normalize (currentRole s)) q = m
  cases m <;> simp

/-- Witness for C12: on the legacy `USER` session a route requiring `CUSTOMER` renders the
children, and `hasRole('CUSTOMER')` is true. -/
theorem protectedRoute_iff_hasRole_witness :
    ProtectedRoute legacyUserSession false (some "CUSTOMER") none = Rendered.children ∧
    hasRole legacyUserSession (JsStr.str "CUSTOMER") = true :=
  ⟨(protectedRoute_iff_hasRole legacyUserSession "CUSTOMER" rfl rfl rfl (by decide)).mpr
      (by decide),
   by decide⟩

end Stockmanagement
